import Mathlib

/-!
Verification of the display-loop host in `CPPMain/SourceFiles/main.cpp`.

The program is a single translation unit: a `display` routine that emits a
fixed sequence of OpenGL immediate-mode commands, and a `main` function that
initializes GLFW, creates one window, registers `display` as a GLUT callback,
runs a swap/poll loop until the window's close flag is set, and tears the
resources down.

The embedding has two layers:

* the `display` routine is embedded as the list of GL commands it issues
  (`display`), together with a small semantics (`interpCmd`, `runDisplay`)
  interpreting those commands over a framebuffer, so that statements about the
  produced image (all-black viewport, idempotence) can be proved;
* `main` is embedded as a trace-producing function `mainRun` over an
  environment `Env` recording the outcomes the external libraries may return
  (whether `glfwInit` succeeds, whether `glfwCreateWindow` returns a handle,
  and after how many `glfwPollEvents` calls the window's close flag is
  observed set).  The trace lists every external call and every write to
  standard error, in program order, and the result also carries the exit
  status returned from `main`.
-/

/-! ### The GL command layer: the body of `display` -/

def GL_COLOR_BUFFER_BIT : Nat := 0x00004000

def GL_QUADS : Nat := 0x0007

/-- One immediate-mode GL command, as issued by `display`.  Scalar arguments
of `glColor3f`/`glVertex2f` are rationals: every literal the source passes
(`0.0f`, `1.0f`, `-1.0f`) is exactly representable. -/
inductive GLCmd where
  | clear (mask : Nat)
  | begin (mode : Nat)
  | color3f (r g b : Rat)
  | vertex2f (x y : Rat)
  | glEnd
  | flush
deriving DecidableEq

/-- The command sequence issued by one invocation of `display`
(main.cpp lines 5-18), in source order. -/
def display : List GLCmd :=
  [ GLCmd.clear GL_COLOR_BUFFER_BIT,
    GLCmd.begin GL_QUADS,
    GLCmd.color3f 0 0 0,
    GLCmd.vertex2f (-1) (-1),
    GLCmd.vertex2f 1 (-1),
    GLCmd.vertex2f 1 1,
    GLCmd.vertex2f (-1) 1,
    GLCmd.glEnd,
    GLCmd.flush ]

/-- An RGB color with rational components. -/
structure Color where
  r : Rat
  g : Rat
  b : Rat
deriving DecidableEq

def black : Color := ⟨0, 0, 0⟩

/-- A point in normalized device coordinates. -/
abbrev Point := Rat × Rat

/-- The color buffer, as a function from NDC points to colors.  The visible
viewport is the square with both coordinates in `[-1, 1]`. -/
def Framebuffer := Point → Color

/-- Twice the signed area of the triangle `p q r`; nonnegative iff `r` lies on
the left of (or on) the directed edge from `p` to `q`. -/
def edgeSide (p q r : Point) : Rat :=
  (q.1 - p.1) * (r.2 - p.2) - (q.2 - p.2) * (r.1 - p.1)

/-- Membership of `p` in the convex quadrilateral with vertices `a b c d`
listed counterclockwise: `p` is on the left of all four directed edges. -/
def insideQuad (a b c d p : Point) : Bool :=
  decide (0 ≤ edgeSide a b p) && decide (0 ≤ edgeSide b c p) &&
    decide (0 ≤ edgeSide c d p) && decide (0 ≤ edgeSide d a p)

/-- Fill the quadrilateral `a b c d` with color `col` over framebuffer `fb`. -/
def paintQuad (a b c d : Point) (col : Color) (fb : Framebuffer) : Framebuffer :=
  fun p => if insideQuad a b c d p then col else fb p

/-- Rasterize a `GL_QUADS` vertex stream: each group of four consecutive
vertices forms one filled quadrilateral (colored by its provoking, i.e. last,
vertex); a trailing incomplete group is discarded, as in GL. -/
def rasterizeQuads : Framebuffer → List (Point × Color) → Framebuffer
  | fb, (a, _) :: (b, _) :: (c, _) :: (d, cd) :: rest =>
      rasterizeQuads (paintQuad a b c d cd fb) rest
  | fb, _ => fb

/-- The GL state visible to `display`: the color buffer, the current color,
the clear color, the open primitive mode (if inside a begin/end pair), and
the vertices accumulated since the last `glBegin`. -/
structure GLState where
  framebuffer : Framebuffer
  currentColor : Color
  clearColor : Color
  mode : Option Nat
  pending : List (Point × Color)

/-- Interpretation of one GL command.  `glClear` wipes the whole color buffer
to the clear color when the color bit is in the mask; `glBegin` opens a fresh
primitive; `glColor3f` sets the current color; `glVertex2f` records a vertex
stamped with the current color (ignored outside begin/end); `glEnd` rasterizes
the accumulated `GL_QUADS` stream; `glFlush` has no effect on this state. -/
def interpCmd (s : GLState) : GLCmd → GLState
  | GLCmd.clear mask =>
      if mask &&& GL_COLOR_BUFFER_BIT != 0 then
        { s with framebuffer := fun _ => s.clearColor }
      else s
  | GLCmd.begin m => { s with mode := some m, pending := [] }
  | GLCmd.color3f r g b => { s with currentColor := ⟨r, g, b⟩ }
  | GLCmd.vertex2f x y =>
      match s.mode with
      | some _ => { s with pending := s.pending ++ [((x, y), s.currentColor)] }
      | none => s
  | GLCmd.glEnd =>
      match s.mode with
      | some m =>
          if m = GL_QUADS then
            { s with framebuffer := rasterizeQuads s.framebuffer s.pending,
                     mode := none, pending := [] }
          else { s with mode := none, pending := [] }
      | none => s
  | GLCmd.flush => s

/-- One invocation of `display`, as a state transformer. -/
def runDisplay (s : GLState) : GLState :=
  display.foldl interpCmd s

/-- Closed form of one `display` invocation: clear to the clear color, then
paint the full-viewport quadrilateral black; the current color is left black
and no vertices stay pending. -/
theorem runDisplay_eq (s : GLState) :
    runDisplay s =
      { framebuffer :=
          paintQuad (-1, -1) (1, -1) (1, 1) (-1, 1) black (fun _ => s.clearColor),
        currentColor := black, clearColor := s.clearColor,
        mode := none, pending := [] } :=
  rfl

/-! ### The process layer: the body of `main` -/

/-- One observable step of the process: a call into the windowing libraries,
or a write to standard error.  The constructors `setWindowSize`,
`setWindowTitle`, `glutMainLoop` and `callDisplay` are calls the libraries
offer (resize/retitle a window, start the GLUT dispatch loop, invoke the
registered display callback); they appear here so their absence from every
trace of the program is expressible. -/
inductive Event where
  | glfwInit
  | glfwCreateWindow (width height : Nat) (title : String)
  | glfwTerminate
  | glfwMakeContextCurrent
  | glfwSwapInterval (interval : Nat)
  | glutDisplayFunc
  | glfwSwapBuffers
  | glfwPollEvents
  | glfwDestroyWindow
  | cerr (msg : String)
  | setWindowSize (width height : Nat)
  | setWindowTitle (title : String)
  | glutMainLoop
  | callDisplay
deriving DecidableEq

/-- The outcomes the external libraries may return during one run: whether
`glfwInit` succeeds, whether `glfwCreateWindow` returns a handle, and the
index of the `glfwPollEvents` call during which the user's close request is
delivered (`closeAfter = n` means the close flag is first observed set after
the `(n+1)`-th poll; GLFW windows are created with the flag unset, and in
this program only `glfwPollEvents` can set it). -/
structure Env where
  initSucceeds : Bool
  createSucceeds : Bool
  closeAfter : Nat

/-- The `while (!glfwWindowShouldClose(window))` loop (main.cpp lines 40-43),
entered with the close flag unset, where the `(n+1)`-th `glfwPollEvents` call
sets the flag: each iteration swaps buffers then polls events, and the loop
condition is re-checked after every iteration. -/
def runLoopOpen : Nat → List Event
  | 0 => [Event.glfwSwapBuffers, Event.glfwPollEvents]
  | n + 1 => Event.glfwSwapBuffers :: Event.glfwPollEvents :: runLoopOpen n

/-- The run loop started from an arbitrary close-flag state: when the flag is
already set the condition fails at once and the loop body never runs. -/
def runLoopFrom (closed : Bool) (n : Nat) : List Event :=
  if closed then [] else runLoopOpen n

/-- The whole of `main` (main.cpp lines 20-48): the trace of external calls
and standard-error writes, in program order, paired with the exit status. -/
def mainRun (env : Env) : List Event × Int :=
  if !env.initSucceeds then
    ([Event.glfwInit, Event.cerr "Failed to initialize GLFW"], -1)
  else if !env.createSucceeds then
    ([Event.glfwInit, Event.glfwCreateWindow 800 600 "Chess Renderer",
      Event.glfwTerminate, Event.cerr "Failed to create GLFW window"], -1)
  else
    ([Event.glfwInit, Event.glfwCreateWindow 800 600 "Chess Renderer",
      Event.glfwMakeContextCurrent, Event.glfwSwapInterval 1,
      Event.glutDisplayFunc]
      ++ runLoopOpen env.closeAfter
      ++ [Event.glfwDestroyWindow, Event.glfwTerminate], 0)

/-- Recognizes window-creation events, for stating that a path never requests
a window. -/
def isCreateWindowEvent : Event → Bool
  | Event.glfwCreateWindow _ _ _ => true
  | _ => false

/-- Holds of an event that neither mutates a window's size or title nor
creates a window with attributes other than 800×600 / "Chess Renderer". -/
def windowAttrOK : Event → Bool
  | Event.glfwCreateWindow w h t => w == 800 && h == 600 && t == "Chess Renderer"
  | Event.setWindowSize _ _ => false
  | Event.setWindowTitle _ => false
  | _ => true

/-! ### Helper lemmas about the loop trace -/

theorem runLoopOpen_mem (n : Nat) (e : Event) (h : e ∈ runLoopOpen n) :
    e = Event.glfwSwapBuffers ∨ e = Event.glfwPollEvents := by
  induction n with
  | zero => simpa [runLoopOpen] using h
  | succ k ih =>
      simp only [runLoopOpen, List.mem_cons] at h
      rcases h with h | h | h
      · exact Or.inl h
      · exact Or.inr h
      · exact ih h

theorem runLoopOpen_count_eq_zero (n : Nat) (e : Event)
    (h1 : e ≠ Event.glfwSwapBuffers) (h2 : e ≠ Event.glfwPollEvents) :
    (runLoopOpen n).count e = 0 := by
  refine List.count_eq_zero.mpr fun hmem => ?_
  rcases runLoopOpen_mem n e hmem with h | h
  · exact h1 h
  · exact h2 h

theorem runLoopOpen_all_windowAttrOK (n : Nat) :
    (runLoopOpen n).all windowAttrOK = true := by
  refine List.all_eq_true.mpr fun e he => ?_
  rcases runLoopOpen_mem n e he with h | h <;> simp [h, windowAttrOK]

theorem runLoopOpen_filter_create (n : Nat) :
    (runLoopOpen n).filter isCreateWindowEvent = [] := by
  refine List.filter_eq_nil_iff.mpr fun e he => ?_
  rcases runLoopOpen_mem n e he with h | h <;> simp [h, isCreateWindowEvent]

/-! ### Claims about the failure paths and the exit status -/

/-- Claim C1: if `glfwInit` fails, the process writes
"Failed to initialize GLFW" to standard error and exits with status -1, and
`glfwCreateWindow` is never called on that path. -/
theorem mainRun_init_failure (env : Env) (h : env.initSucceeds = false) :
    (mainRun env).1 = [Event.glfwInit, Event.cerr "Failed to initialize GLFW"] ∧
    (mainRun env).2 = -1 ∧
    (mainRun env).1.filter isCreateWindowEvent = [] := by
  simp [mainRun, h, isCreateWindowEvent]

/-- Witness for C1: the claim instantiated at a concrete environment in which
initialization fails. -/
theorem mainRun_init_failure_witness :
    (mainRun ⟨false, true, 0⟩).2 = -1 ∧
    (mainRun ⟨false, true, 0⟩).1.filter isCreateWindowEvent = [] :=
  ⟨(mainRun_init_failure ⟨false, true, 0⟩ rfl).2.1,
   (mainRun_init_failure ⟨false, true, 0⟩ rfl).2.2⟩

/-- Claim C2: if `glfwCreateWindow` returns no handle, `glfwTerminate` is
called exactly once, that teardown strictly precedes the standard-error
report, and the process exits with status -1. -/
theorem mainRun_create_failure (env : Env) (h1 : env.initSucceeds = true)
    (h2 : env.createSucceeds = false) :
    (mainRun env).1 =
      [Event.glfwInit, Event.glfwCreateWindow 800 600 "Chess Renderer",
       Event.glfwTerminate, Event.cerr "Failed to create GLFW window"] ∧
    (mainRun env).1.count Event.glfwTerminate = 1 ∧
    (mainRun env).1.indexOf Event.glfwTerminate <
      (mainRun env).1.indexOf (Event.cerr "Failed to create GLFW window") ∧
    (mainRun env).2 = -1 := by
  have ht : (mainRun env).1 =
      [Event.glfwInit, Event.glfwCreateWindow 800 600 "Chess Renderer",
       Event.glfwTerminate, Event.cerr "Failed to create GLFW window"] := by
    simp [mainRun, h1, h2]
  refine ⟨ht, ?_, ?_, by simp [mainRun, h1, h2]⟩ <;> rw [ht] <;> decide

/-- Witness for C2: the claim instantiated at a concrete environment in which
window creation fails. -/
theorem mainRun_create_failure_witness :
    (mainRun ⟨true, false, 0⟩).1.count Event.glfwTerminate = 1 ∧
    (mainRun ⟨true, false, 0⟩).1.indexOf Event.glfwTerminate <
      (mainRun ⟨true, false, 0⟩).1.indexOf
        (Event.cerr "Failed to create GLFW window") ∧
    (mainRun ⟨true, false, 0⟩).2 = -1 :=
  (mainRun_create_failure ⟨true, false, 0⟩ rfl rfl).2

/-- Claim C3: the exit status is always 0 or -1, and it is 0 exactly on the
normal close-flag termination path (both subsystem initialization and window
creation succeeded), -1 exactly when one of the two failed. -/
theorem mainRun_exit_status (env : Env) :
    ((mainRun env).2 = 0 ∨ (mainRun env).2 = -1) ∧
    ((mainRun env).2 = 0 ↔ env.initSucceeds = true ∧ env.createSucceeds = true) ∧
    ((mainRun env).2 = -1 ↔
      env.initSucceeds = false ∨ env.createSucceeds = false) := by
  obtain ⟨i, c, n⟩ := env
  cases i <;> cases c <;> simp [mainRun]

/-! ### Claims about the draw routine -/

/-- Claim C4: the draw routine is idempotent — a second invocation leaves the
GL state exactly as the first did, any positive number of invocations from any
starting state ends in that same state (no accumulated state), and the
resulting framebuffer is black at every point of the viewport. -/
theorem display_idempotent (s : GLState) :
    runDisplay (runDisplay s) = runDisplay s ∧
    (∀ n : Nat, runDisplay^[n] (runDisplay s) = runDisplay s) ∧
    ∀ x y : Rat, -1 ≤ x → x ≤ 1 → -1 ≤ y → y ≤ 1 →
      (runDisplay s).framebuffer (x, y) = black := by
  have hidem : runDisplay (runDisplay s) = runDisplay s := rfl
  refine ⟨hidem, ?_, ?_⟩
  · intro n
    induction n with
    | zero => rfl
    | succ k ih => rw [Function.iterate_succ_apply, hidem, ih]
  · intro x y h1 h2 h3 h4
    have hin : insideQuad (-1, -1) (1, -1) (1, 1) (-1, 1) (x, y) = true := by
      simp only [insideQuad, edgeSide, Bool.and_eq_true, decide_eq_true_eq]
      norm_num
      refine ⟨⟨⟨by linarith, by linarith⟩, by linarith⟩, by linarith⟩
    have hfb : (runDisplay s).framebuffer (x, y) =
        if insideQuad (-1, -1) (1, -1) (1, 1) (-1, 1) (x, y) then black
        else s.clearColor := rfl
    rw [hfb, hin]
    simp

/-- Witness for C4: at a concrete state with a white framebuffer, a red
current color and a blue clear color, a second invocation changes nothing and
the viewport center comes out black. -/
theorem display_idempotent_witness :
    runDisplay (runDisplay
        ⟨fun _ => ⟨1, 1, 1⟩, ⟨1, 0, 0⟩, ⟨0, 0, 1⟩, none, []⟩) =
      runDisplay ⟨fun _ => ⟨1, 1, 1⟩, ⟨1, 0, 0⟩, ⟨0, 0, 1⟩, none, []⟩ ∧
    (runDisplay ⟨fun _ => ⟨1, 1, 1⟩, ⟨1, 0, 0⟩, ⟨0, 0, 1⟩, none, []⟩).framebuffer
        (0, 0) = black :=
  ⟨(display_idempotent ⟨fun _ => ⟨1, 1, 1⟩, ⟨1, 0, 0⟩, ⟨0, 0, 1⟩, none, []⟩).1,
   (display_idempotent ⟨fun _ => ⟨1, 1, 1⟩, ⟨1, 0, 0⟩, ⟨0, 0, 1⟩, none, []⟩).2.2
     0 0 (by norm_num) (by norm_num) (by norm_num) (by norm_num)⟩

/-- Claim C5: one invocation of the draw routine performs exactly: clear the
color buffer, then one filled quadrilateral with NDC corner vertices
(-1,-1), (1,-1), (1,1), (-1,1) in solid black (0,0,0), then flush — and its
effect on any GL state is to clear the buffer and paint that black
quadrilateral over it. -/
theorem display_command_sequence :
    display =
      [GLCmd.clear GL_COLOR_BUFFER_BIT, GLCmd.begin GL_QUADS,
       GLCmd.color3f 0 0 0,
       GLCmd.vertex2f (-1) (-1), GLCmd.vertex2f 1 (-1),
       GLCmd.vertex2f 1 1, GLCmd.vertex2f (-1) 1,
       GLCmd.glEnd, GLCmd.flush] ∧
    ∀ s : GLState, runDisplay s =
      { framebuffer :=
          paintQuad (-1, -1) (1, -1) (1, 1) (-1, 1) black (fun _ => s.clearColor),
        currentColor := black, clearColor := s.clearColor,
        mode := none, pending := [] } :=
  ⟨rfl, runDisplay_eq⟩

/-! ### Claims about the run loop and resource lifecycle -/

/-- Claim C6: from any state in which the close flag is set, the run loop
returns at once (the condition is re-checked and fails, no further loop body
runs), and on the normal path the trace is exactly the setup, the loop
iterations, and then — exactly once — window destruction followed by
subsystem termination. -/
theorem runLoop_close_terminates :
    (∀ n : Nat, runLoopFrom true n = []) ∧
    (∀ env : Env, env.initSucceeds = true → env.createSucceeds = true →
      (mainRun env).1 =
        [Event.glfwInit, Event.glfwCreateWindow 800 600 "Chess Renderer",
         Event.glfwMakeContextCurrent, Event.glfwSwapInterval 1,
         Event.glutDisplayFunc]
          ++ runLoopOpen env.closeAfter
          ++ [Event.glfwDestroyWindow, Event.glfwTerminate] ∧
      (mainRun env).1.count Event.glfwDestroyWindow = 1 ∧
      (mainRun env).1.count Event.glfwTerminate = 1) := by
  constructor
  · intro n
    simp [runLoopFrom]
  · intro env h1 h2
    have ht : (mainRun env).1 =
        [Event.glfwInit, Event.glfwCreateWindow 800 600 "Chess Renderer",
         Event.glfwMakeContextCurrent, Event.glfwSwapInterval 1,
         Event.glutDisplayFunc]
          ++ runLoopOpen env.closeAfter
          ++ [Event.glfwDestroyWindow, Event.glfwTerminate] := by
      simp [mainRun, h1, h2]
    have hd := runLoopOpen_count_eq_zero env.closeAfter Event.glfwDestroyWindow
      (by decide) (by decide)
    have htm := runLoopOpen_count_eq_zero env.closeAfter Event.glfwTerminate
      (by decide) (by decide)
    refine ⟨ht, ?_, ?_⟩ <;> rw [ht] <;>
      simp [List.count_append, List.count_cons, hd, htm]

/-- Witness for C6: with the flag already set the loop trace is empty, and in
a concrete normal run (close delivered on the fourth poll) the window is
destroyed exactly once. -/
theorem runLoop_close_terminates_witness :
    runLoopFrom true 7 = [] ∧
    (mainRun ⟨true, true, 3⟩).1.count Event.glfwDestroyWindow = 1 :=
  ⟨runLoop_close_terminates.1 7,
   (runLoop_close_terminates.2 ⟨true, true, 3⟩ rfl rfl).2.1⟩

/-- Claim C7: while the close flag is unset every loop iteration is the same
two steps in the same order — swap buffers, then poll events — with no other
per-frame work: the loop trace is a repetition of that two-event block. -/
theorem runLoop_iteration_shape (n : Nat) :
    runLoopOpen n =
      List.flatten (List.replicate (n + 1)
        [Event.glfwSwapBuffers, Event.glfwPollEvents]) := by
  induction n with
  | zero => rfl
  | succ k ih => simp [runLoopOpen, List.replicate_succ, ih]

/-- Claim C8: every window-creation event in any trace carries width 800,
height 600 and title "Chess Renderer"; no trace contains a window-resize or
retitle event; and at most one window is ever created — the attributes are
set once at creation and never mutated. -/
theorem window_attributes_constant (env : Env) :
    (mainRun env).1.all windowAttrOK = true ∧
    ((mainRun env).1.filter isCreateWindowEvent).length ≤ 1 := by
  obtain ⟨i, c, n⟩ := env
  cases i <;> cases c <;>
    simp [mainRun, windowAttrOK, isCreateWindowEvent, List.all_append,
      List.filter_append, runLoopOpen_all_windowAttrOK, runLoopOpen_filter_create]

/-- Claim C9: resource symmetry on every exit path — `glfwInit` is called
exactly once; a successful `glfwInit` (and only a successful one) is matched
by exactly one `glfwTerminate`; window creation is attempted exactly when
initialization succeeded; and a successful creation (and only a successful
one) is matched by exactly one `glfwDestroyWindow`. -/
theorem resource_symmetry (env : Env) :
    (mainRun env).1.count Event.glfwInit = 1 ∧
    ((mainRun env).1.count Event.glfwTerminate =
      if env.initSucceeds then 1 else 0) ∧
    ((mainRun env).1.count (Event.glfwCreateWindow 800 600 "Chess Renderer") =
      if env.initSucceeds then 1 else 0) ∧
    ((mainRun env).1.count Event.glfwDestroyWindow =
      if env.initSucceeds && env.createSucceeds then 1 else 0) := by
  obtain ⟨i, c, n⟩ := env
  have h1 := runLoopOpen_count_eq_zero n Event.glfwInit (by decide) (by decide)
  have h2 := runLoopOpen_count_eq_zero n Event.glfwTerminate (by decide) (by decide)
  have h3 := runLoopOpen_count_eq_zero n
    (Event.glfwCreateWindow 800 600 "Chess Renderer") (by decide) (by decide)
  have h4 := runLoopOpen_count_eq_zero n Event.glfwDestroyWindow
    (by decide) (by decide)
  cases i <;> cases c <;>
    simp [mainRun, List.count_append, List.count_cons, h1, h2, h3, h4]

/-- Claim C10: the display callback is registered (exactly once, on the
normal path) but never invoked — no trace contains a display invocation, and
no trace starts the GLUT dispatch loop that would deliver it. -/
theorem display_never_invoked (env : Env) :
    (mainRun env).1.count Event.callDisplay = 0 ∧
    (mainRun env).1.count Event.glutMainLoop = 0 ∧
    ((mainRun env).1.count Event.glutDisplayFunc =
      if env.initSucceeds && env.createSucceeds then 1 else 0) := by
  obtain ⟨i, c, n⟩ := env
  have h1 := runLoopOpen_count_eq_zero n Event.callDisplay (by decide) (by decide)
  have h2 := runLoopOpen_count_eq_zero n Event.glutMainLoop (by decide) (by decide)
  have h3 := runLoopOpen_count_eq_zero n Event.glutDisplayFunc
    (by decide) (by decide)
  cases i <;> cases c <;>
    simp [mainRun, List.count_append, List.count_cons, h1, h2, h3]
